import Mathlib

set_option maxRecDepth 40000

/-!
Shallow embedding of `chefint.py`, an interpreter for the esolang Chef,
together with theorems settling the specification claims.

Modelling conventions:

* Python objects with identity — the `[value, kind, name]` ingredient lists
  (chefint.py line 1189), the bowl/dish list objects, and the bowl/dish dict
  objects — live in an explicit heap (`Heap`); program variables hold indices
  ("references") into that heap, so Python aliasing and in-place mutation are
  represented faithfully.
* Instruction recognition by regular expressions is pre-modelled: the type
  `Instr` has one constructor per regex branch of `Chef.parse_instruction`,
  carrying exactly the capture groups that branch extracts.  The branch bodies
  themselves are translated line by line.
* Python numbers are `PyNum`: `int` for machine integers, `flt` for the exact
  rational produced by true division (IEEE rounding is not modelled; no claim
  below observes a non-integer value).
* Python exceptions and the fatal reporting helpers of the Chef class
  (which exit the process) are all aborts; each abort site gets its own constructor of
  `Err`.
* `random.shuffle` is modelled by a permutation supplied in `Env`; standard
  input is a pre-parsed list of integers threaded through the state.
* The recursion of `Chef.cook` through `call_sous_chef` is driven by a fuel
  parameter; running out of fuel is `Err.recursionError`, the native Python
  RecursionError raised when the interpreter call stack is exhausted.
-/

deriving instance DecidableEq for Except

/-- A Python number: an `int`, or the float produced by true division,
modelled as the exact fraction `num / den`. -/
inductive PyNum where
  | int (n : Int)
  | flt (num : Int) (den : Int)
deriving DecidableEq

/-- An ingredient record: the Python list `[quantity, type, name]` built at
chefint.py line 1189.  `value = none` models a quantity of `None`. -/
structure Item where
  value : Option PyNum
  kind : String
  name : String
deriving DecidableEq

/-- A Python dict key as used for the bowl/dish dicts: the initial dicts use
`int` keys, but several handlers look up raw regex captures, which are `str`
keys and therefore never equal an `int` key. -/
inductive BKey where
  | int (n : Int)
  | str (s : String)
deriving DecidableEq

/-- The heap of mutable Python objects: ingredient records, list objects
(bowls and dishes, holding item references), and dict objects (mapping a
container number to a list reference).  References are indices. -/
structure Heap where
  items : List Item
  lists : List (List Nat)
  dicts : List (List (BKey × Nat))
deriving DecidableEq

/-- Abort reasons: one constructor per Python exception site or
fatal reporting call reached by the embedded code. -/
inductive Err where
  /-- The ambiguity abort, message "Bowl number unspecified." (a fatal static error). -/
  | bowlUnspecified
  /-- The fatal abort with message "Ingredient not found: ..." in `put` and `addingredient`. -/
  | ingredientNotFound (name : String)
  /-- The fatal abort with message "Ingredient ... does not exist." in the fridge branch. -/
  | ingredientDoesNotExist (name : String)
  /-- The `runtime_error(f"Mixing bowl ... does not exist.")` in `put` / `addingredient`. -/
  | bowlMissing (key : BKey)
  /-- The fatal abort with message "Mixing bowl ... not found." in `stir`. -/
  | mixingBowlNotFound (key : Int)
  /-- The `runtime_error("Auxiliary recipe ... not found...")` in `call_sous_chef`. -/
  | auxNotFound (name : String)
  /-- The fatal abort with message "Instruction not recognised: ...". -/
  | instructionNotRecognised
  /-- Python KeyError (dict subscript on a missing key, or a dangling
  reference, which constructor-built states never produce). -/
  | keyError
  /-- Python IndexError (pop or `[-1]` on an empty list). -/
  | indexError
  /-- Python TypeError (e.g. arithmetic on `None`, `str.replace(None, ...)`,
  hashing a list). -/
  | typeError
  /-- Python ValueError (e.g. `int("")`, `chr` of an out-of-range value). -/
  | valueError
  /-- Python ZeroDivisionError. -/
  | zeroDivisionError
  /-- Python UnicodeEncodeError (printing a lone surrogate). -/
  | unicodeEncodeError
  /-- Python AttributeError: line 674 calls `self.execute`, which is not
  defined on the class. -/
  | attributeError
  /-- The `raise IOError` at line 667 when the loop terminator regex fails. -/
  | ioError
  /-- Python EOFError (`input()` with exhausted standard input). -/
  | eofError
  /-- Python AssertionError (`assert len(self.mixing_bowls) == 1` in `stir`). -/
  | assertionError
  /-- Python RecursionError: the native call stack is exhausted. -/
  | recursionError
deriving DecidableEq

/-- Association-list lookup (Python dict subscript / membership). -/
def alookup [DecidableEq α] : List (α × β) → α → Option β
  | [], _ => none
  | (k, v) :: rest, key => if k = key then some v else alookup rest key

/-- Association-list update with Python dict semantics: overwrite in place if
the key exists, otherwise append (insertion order preserved). -/
def dinsert [DecidableEq α] : List (α × β) → α → β → List (α × β)
  | [], key, v => [(key, v)]
  | (k, w) :: rest, key, v =>
    if k = key then (k, v) :: rest else (k, w) :: dinsert rest key v

namespace Heap

def getItem (h : Heap) (r : Nat) : Option Item := h.items.get? r

def setItemValue (h : Heap) (r : Nat) (v : Option PyNum) : Heap :=
  match h.items.get? r with
  | none => h
  | some it => { h with items := h.items.set r { it with value := v } }

def setItemKind (h : Heap) (r : Nat) (k : String) : Heap :=
  match h.items.get? r with
  | none => h
  | some it => { h with items := h.items.set r { it with kind := k } }

def getList (h : Heap) (r : Nat) : Option (List Nat) := h.lists.get? r

def setList (h : Heap) (r : Nat) (l : List Nat) : Heap :=
  { h with lists := h.lists.set r l }

def getDict (h : Heap) (r : Nat) : Option (List (BKey × Nat)) := h.dicts.get? r

/-- Dict subscript read: `dictref[key]`. -/
def dictGet (h : Heap) (d : Nat) (k : BKey) : Option Nat :=
  (h.getDict d).bind (fun dd => alookup dd k)

/-- Dict subscript write: `dictref[key] = listref` (in-place dict mutation). -/
def dictSet (h : Heap) (d : Nat) (k : BKey) (v : Nat) : Heap :=
  match h.getDict d with
  | none => h
  | some dd => { h with dicts := h.dicts.set d (dinsert dd k v) }

/-- Allocate a fresh list object. -/
def allocList (h : Heap) (l : List Nat) : Heap × Nat :=
  ({ h with lists := h.lists ++ [l] }, h.lists.length)

/-- Allocate a fresh dict object. -/
def allocDict (h : Heap) (dd : List (BKey × Nat)) : Heap × Nat :=
  ({ h with dicts := h.dicts ++ [dd] }, h.dicts.length)

/-- Allocate a fresh ingredient record. -/
def allocItem (h : Heap) (it : Item) : Heap × Nat :=
  ({ h with items := h.items ++ [it] }, h.items.length)

end Heap

namespace PyNum

/-- Python `+` restricted to the values the interpreter produces. -/
def add : PyNum → PyNum → PyNum
  | .int a, .int b => .int (a + b)
  | .int a, .flt n d => .flt (a * d + n) d
  | .flt n d, .int b => .flt (n + b * d) d
  | .flt n d, .flt n2 d2 => .flt (n * d2 + n2 * d) (d * d2)

/-- Python `-`. -/
def sub : PyNum → PyNum → PyNum
  | .int a, .int b => .int (a - b)
  | .int a, .flt n d => .flt (a * d - n) d
  | .flt n d, .int b => .flt (n - b * d) d
  | .flt n d, .flt n2 d2 => .flt (n * d2 - n2 * d) (d * d2)

/-- Python `*`. -/
def mul : PyNum → PyNum → PyNum
  | .int a, .int b => .int (a * b)
  | .int a, .flt n d => .flt (a * n) d
  | .flt n d, .int b => .flt (n * b) d
  | .flt n d, .flt n2 d2 => .flt (n * n2) (d * d2)

/-- Numerator / denominator view. -/
def frac : PyNum → Int × Int
  | .int n => (n, 1)
  | .flt n d => (n, d)

/-- Python `float(a / b)`: true division, `ZeroDivisionError` on a zero
divisor. -/
def divF (a b : PyNum) : Except Err PyNum :=
  let (n1, d1) := a.frac
  let (n2, d2) := b.frac
  if n2 = 0 then .error .zeroDivisionError
  else .ok (.flt (n1 * d2) (d1 * n2))

/-- Python `x == 0`. -/
def isZero : PyNum → Bool
  | .int n => n = 0
  | .flt n _ => n = 0

/-- Python `int(x)`: truncation toward zero for a float. -/
def toIntTrunc : PyNum → Int
  | .int n => n
  | .flt n d => Int.tdiv n d

/-- Python `str(x)`.  The decimal rendering of a float is not modelled (no
claim below renders a non-integer value); the `flt` case is a placeholder. -/
def pyStr : PyNum → String
  | .int n => toString n
  | .flt n d => toString n ++ "/" ++ toString d

end PyNum

/-- Python `x == 0` on a value that may be `None` (`None == 0` is `False`). -/
def optIsZero : Option PyNum → Bool
  | none => false
  | some v => v.isZero

/-- Python `print(value)` on an ingredient value (`print(None)` writes
`None`). -/
def pyStrOpt : Option PyNum → String
  | none => "None"
  | some v => v.pyStr

/-- Python `chr(value)` followed by `print`: TypeError on `None` or a float,
ValueError outside `range(0x110000)`, UnicodeEncodeError on a lone
surrogate. -/
def pyChr : Option PyNum → Except Err String
  | none => .error .typeError
  | some (.flt _ _) => .error .typeError
  | some (.int v) =>
    if v < 0 then .error .valueError
    else if v ≥ 1114112 then .error .valueError
    else if 55296 ≤ v ∧ v ≤ 57343 then .error .unicodeEncodeError
    else .ok (String.singleton (Char.ofNat v.toNat))

/-- Python `int(s)` on a regex capture: ValueError unless the string is a
non-empty digit sequence. -/
def pyInt (s : String) : Except Err Int :=
  if s.data = [] then .error .valueError
  else if s.data.all (fun ch => ch.isDigit) then
    .ok (Int.ofNat (s.data.foldl (fun acc ch => acc * 10 + (ch.toNat - 48)) 0))
  else .error .valueError

/-- Python `s[:-2]`: drop the final two characters. -/
def dropRight2 (s : String) : String :=
  String.mk s.data.dropLast.dropLast

/-- The ordinal conversion `int(capture[:-2]) if capture else DEFAULT`,
repeated at lines 416, 463, 489, 781-783, 917 and 920. -/
def ordInt (capture : Option String) : Except Err Int :=
  match capture with
  | none => .ok 1
  | some s => pyInt (dropRight2 s)

/-- Longest digit prefix of a character list. -/
def digitsPrefix : List Char → List Char
  | [] => []
  | ch :: rest => if ch.isDigit then ch :: digitsPrefix rest else []

/-- Character-list prefix test. -/
def startsWith : List Char → List Char → Bool
  | [], _ => true
  | _ :: _, [] => false
  | p :: ps, ch :: rest => p = ch && startsWith ps rest

/-- Numeric value of a digit list. -/
def digitsToNat (l : List Char) : Nat :=
  l.foldl (fun acc ch => acc * 10 + (ch.toNat - 48)) 0

/-- One attempt of the regex `Serves ([0-9]+).` at the current position: after
the literal and a greedy digit run, `.` must consume one further character
that is not a newline; the engine backtracks one digit when necessary. -/
def matchServesAt (s : List Char) : Option Nat :=
  if startsWith "Serves ".data s then
    let rest := s.drop 7
    let ds := digitsPrefix rest
    if ds = [] then none
    else
      match rest.drop ds.length with
      | ch :: _ =>
        if ch ≠ '\n' then some (digitsToNat ds)
        else if ds.length ≥ 2 then some (digitsToNat ds.dropLast) else none
      | [] => if ds.length ≥ 2 then some (digitsToNat ds.dropLast) else none
  else none

/-- The `re.search("Serves ([0-9]+).", script)` (chefint.py line 188): leftmost
match wins. -/
def findServesAux : List Char → Option Nat
  | [] => none
  | s@(_ :: rest) =>
    match matchServesAt s with
    | some n => some n
    | none => findServesAux rest

/-- The parsed `Serves` directive of a script, if any. -/
def findServes (s : String) : Option Nat := findServesAux s.data

/-- One attempt of the regex `(2nd|3rd|[0-9]+th) mixing bowl` at the current
position. -/
def matchMultipleBowlAt (s : List Char) : Bool :=
  startsWith "2nd mixing bowl".data s ||
  startsWith "3rd mixing bowl".data s ||
  (let ds := digitsPrefix s
   decide (ds ≠ []) && startsWith "th mixing bowl".data (s.drop ds.length))

/-- The `re.search` scan for `has_multiple_bowls` (chefint.py line 1276). -/
def hasMultipleBowlsAux : List Char → Bool
  | [] => false
  | s@(_ :: rest) => matchMultipleBowlAt s || hasMultipleBowlsAux rest

/-- The `Chef.has_multiple_bowls`: does the raw script reference a mixing bowl
with an ordinal of 2 or more (including any `Nth` for `N` digits)? -/
def has_multiple_bowls (script : String) : Bool :=
  hasMultipleBowlsAux script.data

/-- One instruction of a recipe method: one constructor per regex branch of
`Chef.parse_instruction`, carrying exactly the capture groups that branch
extracts from the line (recognition itself is pre-modelled).  The
`Refrigerate` branch (lines 547-573) and the `Stir` branch (lines 632-638,
which additionally falls through into branch Q) are not modelled; no claim
depends on them. -/
inductive Instr where
  /-- The `Put ingredient into [nth] mixing bowl.` — the ordinal capture is the
  bare digit string (regex at line 263). -/
  | put (ingredient : String) (bowl : Option String)
  /-- The `Fold ingredient into [nth] mixing bowl.` — the ordinal capture keeps
  its suffix, e.g. `2nd` (regex at line 283). -/
  | fold (ingredient : String) (bowl : Option String)
  /-- The `Add ingredient to [nth] mixing bowl.` (line 307). -/
  | add (ingredient : String) (bowl : Option String)
  /-- The `Remove ingredient from [nth] mixing bowl.` (line 331). -/
  | remove (ingredient : String) (bowl : Option String)
  /-- The `Combine ingredient into [nth] mixing bowl.` (line 355). -/
  | combine (ingredient : String) (bowl : Option String)
  /-- The `Divide ingredient into [nth] mixing bowl.` (line 379). -/
  | divide (ingredient : String) (bowl : Option String)
  /-- The `Liquefy contents of the [nth] mixing bowl.` (line 403). -/
  | liquefyBowl (bowl : Option String)
  /-- The `Liquefy ingredient.` (line 431). -/
  | liquefyIng (ingredient : String)
  /-- The `Clean [nth] mixing bowl.` (line 450). -/
  | clean (bowl : Option String)
  /-- The `Mix the [nth] mixing bowl well.` (line 476). -/
  | mix (bowl : Option String)
  /-- The `Take ingredient from refrigerator.` (line 503). -/
  | takeFridge (ingredient : String)
  /-- The `Pour contents of the [nth] mixing bowl into the [pth] baking dish.` —
  both ordinal captures are bare digit strings (lines 528-529). -/
  | pour (bowl : Option String) (dish : Option String)
  /-- The `Add dry ingredients [to the nth mixing bowl].` (line 581). -/
  | addDry (bowl : Option String)
  /-- The `Serve with auxiliary-recipe.` (line 614). -/
  | serveWith (name : String)
  /-- The `Set aside.` (line 250, exact match). -/
  | setAside
  /-- A loop-opening line `Verb the ingredient.` (branch Q, line 641);
  `terminatorFound` records whether the loop-text regex built at line 661
  succeeds on the script. -/
  | loopStart (verb : String) (ingredient : String) (terminatorFound : Bool)
  /-- A loop-terminator line: branch Q matches it with `until` inside the
  match text (lines 643-644). -/
  | untilClause
  /-- A line matched by no branch (line 688). -/
  | unrecognized
deriving DecidableEq

/-- The parsed pieces of one auxiliary recipe, as carved out of the script
text at lines 1392-1412 (the text splitting itself is pre-modelled): its
script `name + "\n\n" + ingredients + "\n\n" + method + "\n\n"`, its
ingredient declarations in order, and its method. -/
structure AuxRecipe where
  script : String
  decls : List Item
  method : List Instr
deriving DecidableEq

/-- The `Chef` object (lines 26-50 and the lazy properties).  The lazily
parsed script pieces (`comment`, `ingredients`, `method`, the auxiliary
table) are carried as fields; `mixing_bowls` and `baking_dishes` are
references to dict objects in the heap. -/
structure Chef where
  script : String
  comment : Option String
  ingredients : List (String × Nat)
  method : List Instr
  mixing_bowls : Nat
  baking_dishes : Nat
  aux_table : List (String × AuxRecipe)
  refrigerated : Bool
deriving DecidableEq

/-- The mutable run state threaded through execution: the heap and the
remaining standard input (pre-parsed integers for `int(input(...))`). -/
structure St where
  heap : Heap
  stdin : List Int
deriving DecidableEq

/-- External nondeterminism: the permutation chosen by `random.shuffle`. -/
structure Env where
  shuffle : List Nat → List Nat

/-- Heap at module import time: the two shared default-argument objects of
`Chef.__init__` (lines 34-35), a dict `{1: []}` for mixing bowls and one
for baking dishes, each with its one (empty) list object. -/
def initialHeap : Heap :=
  { items := [], lists := [[], []],
    dicts := [[(BKey.int 1, 0)], [(BKey.int 1, 1)]] }

/-- Reference to the shared default `mixing_bowls` argument. -/
def defaultBowlsDict : Nat := 0

/-- Reference to the shared default `baking_dishes` argument. -/
def defaultDishesDict : Nat := 1

/-- The `Chef.__init__` (lines 32-50): a chef built without explicit container
arguments holds references to the module-level default dict objects —
Python evaluates default argument expressions once, at function
definition. -/
def Chef.init (script : String) (comment : Option String)
    (ingredients : List (String × Nat)) (method : List Instr)
    (aux_table : List (String × AuxRecipe))
    (mixing_bowls baking_dishes : Option Nat) : Chef :=
  { script := script, comment := comment, ingredients := ingredients,
    method := method, aux_table := aux_table,
    mixing_bowls := mixing_bowls.getD defaultBowlsDict,
    baking_dishes := baking_dishes.getD defaultDishesDict,
    refrigerated := false }

/-- The `auxiliary_recipes` property (lines 1319-1414).  The text carving is
pre-modelled by `aux_table`, but the first mutation the property actually
performs, `script_editable.replace(self.comment, "")` at line 1365, raises
TypeError whenever the comment is `None` — `str.replace` rejects a
non-string argument. -/
def Chef.auxiliary_recipes (c : Chef) :
    Except Err (List (String × AuxRecipe)) :=
  match c.comment with
  | none => .error .typeError
  | some _ => .ok c.aux_table

/-- The `Chef.put` (lines 740-755).  Line 746 replaces a missing ordinal by the
int `DEFAULT_BOWL`; an explicit capture stays a str and therefore never
equals an int dict key.  Line 755 appends the ingredient record itself — a
reference, not a copy. -/
def Chef.put (st : St) (c : Chef) (ingredient : String)
    (mixingbowl : Option String) : Except Err St :=
  let key : BKey := match mixingbowl with | none => .int 1 | some s => .str s
  -- line 749
  match alookup c.ingredients ingredient with
  | none => .error (.ingredientNotFound ingredient)
  | some itemRef =>
    -- line 752
    match st.heap.dictGet c.mixing_bowls key with
    | none => .error (.bowlMissing key)
    | some listRef =>
      match st.heap.getList listRef with
      | none => .error .keyError
      | some l =>
        .ok { st with heap := st.heap.setList listRef (l ++ [itemRef]) }

/-- The `Chef.fold` (lines 758-789): pop the top reference of the bowl, then
overwrite the named ingredient record value in place. -/
def Chef.fold (st : St) (c : Chef) (ingredient : String)
    (mixingbowl : Option String) : Except Err St :=
  -- lines 781-783: key = int(mixingbowl[:-2]) or the default 1
  match ordInt mixingbowl with
  | .error e => .error e
  | .ok keyn =>
    -- line 786
    match st.heap.dictGet c.mixing_bowls (.int keyn) with
    | none => .error .keyError
    | some listRef =>
      match st.heap.getList listRef with
      | none => .error .keyError
      | some l =>
        match l.getLast? with
        | none => .error .indexError
        | some poppedRef =>
          let st1 := { st with heap := st.heap.setList listRef l.dropLast }
          -- line 789: self.ingredients[ingredient][0] = popped[0]
          match alookup c.ingredients ingredient with
          | none => .error .keyError
          | some ingRef =>
            match st1.heap.getItem poppedRef with
            | none => .error .keyError
            | some popped =>
              .ok { st1 with heap := st1.heap.setItemValue ingRef popped.value }

/-- The `Chef.addingredient` (lines 792-818).  Unlike its siblings, it has no
`None` guard: line 818 adds the raw value to the bowl top, so an absent
value raises TypeError. -/
def Chef.addingredient (st : St) (c : Chef) (ingredient : String)
    (mixingbowl : Option String) : Except Err St :=
  -- line 802: default bowl; an explicit capture (`1st` style) stays a str
  let key : BKey := match mixingbowl with | none => .int 1 | some s => .str s
  -- line 805
  match alookup c.ingredients ingredient with
  | none => .error (.ingredientNotFound ingredient)
  | some ingRef =>
    -- line 808
    match st.heap.dictGet c.mixing_bowls key with
    | none => .error (.bowlMissing key)
    | some listRef =>
      match st.heap.getList listRef with
      | none => .error .keyError
      | some l =>
        -- line 818
        match l.getLast? with
        | none => .error .indexError
        | some topRef =>
          match st.heap.getItem ingRef, st.heap.getItem topRef with
          | some ing, some top =>
            match top.value, ing.value with
            | some a, some b =>
              .ok { st with heap := st.heap.setItemValue topRef (some (a.add b)) }
            | _, _ => .error .typeError
          | _, _ => .error .keyError

/-- The `Chef.removeingredient` (lines 820-835).  An explicit ordinal keeps its
sliced str form as the dict key (line 830), which raises KeyError; a `None`
ingredient value is replaced by 0 (lines 832-833). -/
def Chef.removeingredient (st : St) (c : Chef) (ingredient : String)
    (mixingbowl : Option String) : Except Err St :=
  -- line 826: KeyError if the ingredient is not declared (no check)
  match alookup c.ingredients ingredient with
  | none => .error .keyError
  | some ingRef =>
    match st.heap.getItem ingRef with
    | none => .error .keyError
    | some ing =>
      let key : BKey := match mixingbowl with
        | none => .int 1
        | some s => .str (dropRight2 s)
      let value := ing.value.getD (.int 0)
      -- line 835
      match st.heap.dictGet c.mixing_bowls key with
      | none => .error .keyError
      | some listRef =>
        match st.heap.getList listRef with
        | none => .error .keyError
        | some l =>
          match l.getLast? with
          | none => .error .indexError
          | some topRef =>
            match st.heap.getItem topRef with
            | none => .error .keyError
            | some top =>
              match top.value with
              | none => .error .typeError
              | some a =>
                .ok { st with
                      heap := st.heap.setItemValue topRef (some (a.sub value)) }

/-- The `Chef.combineingredient` (lines 837-852): as `removeingredient` with
multiplication. -/
def Chef.combineingredient (st : St) (c : Chef) (ingredient : String)
    (mixingbowl : Option String) : Except Err St :=
  match alookup c.ingredients ingredient with
  | none => .error .keyError
  | some ingRef =>
    match st.heap.getItem ingRef with
    | none => .error .keyError
    | some ing =>
      let key : BKey := match mixingbowl with
        | none => .int 1
        | some s => .str (dropRight2 s)
      let value := ing.value.getD (.int 0)
      match st.heap.dictGet c.mixing_bowls key with
      | none => .error .keyError
      | some listRef =>
        match st.heap.getList listRef with
        | none => .error .keyError
        | some l =>
          match l.getLast? with
          | none => .error .indexError
          | some topRef =>
            match st.heap.getItem topRef with
            | none => .error .keyError
            | some top =>
              match top.value with
              | none => .error .typeError
              | some a =>
                .ok { st with
                      heap := st.heap.setItemValue topRef (some (a.mul value)) }

/-- The `Chef.divideingredient` (lines 854-890): a `None` divisor becomes 1
(lines 883-884); the quotient is a float (line 890). -/
def Chef.divideingredient (st : St) (c : Chef) (ingredient : String)
    (mixingbowl : Option String) : Except Err St :=
  -- line 875: KeyError if undeclared
  match alookup c.ingredients ingredient with
  | none => .error .keyError
  | some ingRef =>
    match st.heap.getItem ingRef with
    | none => .error .keyError
    | some ing =>
      let key : BKey := match mixingbowl with
        | none => .int 1
        | some s => .str (dropRight2 s)
      let value := ing.value.getD (.int 1)
      -- line 890
      match st.heap.dictGet c.mixing_bowls key with
      | none => .error .keyError
      | some listRef =>
        match st.heap.getList listRef with
        | none => .error .keyError
        | some l =>
          match l.getLast? with
          | none => .error .indexError
          | some topRef =>
            match st.heap.getItem topRef with
            | none => .error .keyError
            | some top =>
              match top.value with
              | none => .error .typeError
              | some a =>
                match a.divF value with
                | .error e => .error e
                | .ok r =>
                  .ok { st with heap := st.heap.setItemValue topRef (some r) }

/-- The `Chef.pour` (lines 893-927).  Line 917 slices two characters off the
digits-only ordinal capture before `int()`, so a one- or two-digit ordinal
yields `int("")`, a ValueError.  Lines 922-924 create a missing baking dish;
line 927 extends it with the bowl list references (the records themselves
are shared). -/
def Chef.pour (st : St) (c : Chef) (mixingbowl bakingdish : Option String) :
    Except Err St :=
  match ordInt mixingbowl with
  | .error e => .error e
  | .ok mb =>
    match ordInt bakingdish with
    | .error e => .error e
    | .ok bd =>
      -- lines 922-924
      let hr : Heap × Nat :=
        match st.heap.dictGet c.baking_dishes (.int bd) with
        | some r => (st.heap, r)
        | none =>
          let (ha, r) := st.heap.allocList []
          (ha.dictSet c.baking_dishes (.int bd) r, r)
      -- line 927 (KeyError if the mixing bowl is missing)
      match hr.1.dictGet c.mixing_bowls (.int mb) with
      | none => .error .keyError
      | some bowlRef =>
        match hr.1.getList hr.2, hr.1.getList bowlRef with
        | some dl, some bl =>
          .ok { st with heap := hr.1.setList hr.2 (dl ++ bl) }
        | _, _ => .error .keyError

/-- Ingredient-table construction for a freshly built chef: one fresh
`[quantity, type, name]` record per declaration (line 1189). -/
def allocIngredients : Heap → List Item → Heap × List (String × Nat)
  | h, [] => (h, [])
  | h, it :: rest =>
    let (h1, r) := h.allocItem it
    let (h2, assoc) := allocIngredients h1 rest
    (h2, (it.name, r) :: assoc)

/-- The `Chef.call_sous_chef` (lines 691-737).  `copy.copy` on a dict builds a
new dict object whose values are the same list objects, so the sous-chef
mutates the caller bowls in place; line 737 then extends the caller bowl 1
with the sous-chef bowl 1 (the same list object unless rebound).  The
sous-chef comment is `None`: an auxiliary script
`Name.` + blank line + `Ingredients.` + newline + declarations never
matches the comment regex of line 1061. -/
def Chef.call_sous_chef
    (cookFn : St → Chef → Except Err (St × Chef × List String))
    (st : St) (c : Chef) (aux_recipe_name : String) :
    Except Err (St × List String) :=
  -- line 709: first access of the auxiliary_recipes property
  match c.auxiliary_recipes with
  | .error e => .error e
  | .ok table =>
    match alookup table aux_recipe_name with
    | none => .error (.auxNotFound aux_recipe_name)
    | some aux =>
      -- lines 729-732
      match st.heap.getDict c.mixing_bowls, st.heap.getDict c.baking_dishes with
      | some bowlsDict, some dishesDict =>
        let (h1, bowlsRef) := st.heap.allocDict bowlsDict
        let hd := h1.allocDict dishesDict
        let ha := allocIngredients hd.1 aux.decls
        let sous : Chef :=
          { script := aux.script, comment := none, ingredients := ha.2,
            method := aux.method, mixing_bowls := bowlsRef,
            baking_dishes := hd.2, aux_table := [], refrigerated := false }
        -- line 733
        match cookFn { st with heap := ha.1 } sous with
        | .error e => .error e
        | .ok (st1, sous1, out) =>
          -- line 737
          match st1.heap.dictGet c.mixing_bowls (.int 1),
                st1.heap.dictGet sous1.mixing_bowls (.int 1) with
          | some callerRef, some sousRef =>
            match st1.heap.getList callerRef, st1.heap.getList sousRef with
            | some l1, some l2 =>
              .ok ({ st1 with heap := st1.heap.setList callerRef (l1 ++ l2) },
                   out)
            | _, _ => .error .keyError
          | _, _ => .error .keyError
      | _, _ => .error .keyError

/-- Render one ingredient record as `serve` prints it (lines 221-231): the
value itself for a dry record, `chr(value)` for a liquid one. -/
def renderItem (it : Item) : Except Err String :=
  if it.kind = "liquid" then pyChr it.value else .ok (pyStrOpt it.value)

/-- The inner loop of `serve` over the reversed dish (line 221): resolve each
reference and print it. -/
def renderRefs (h : Heap) : List Nat → Except Err (List String)
  | [] => .ok []
  | r :: rest =>
    match h.getItem r with
    | none => .error .keyError
    | some it =>
      match renderItem it with
      | .error e => .error e
      | .ok s =>
        match renderRefs h rest with
        | .error e => .error e
        | .ok out => .ok (s :: out)

/-- One dish of the outer loop of `serve`: `self.baking_dishes[i][::-1]`
(KeyError at line 221 when dish `i` is not a key). -/
def renderDish (st : St) (c : Chef) (i : Int) : Except Err (List String) :=
  match st.heap.dictGet c.baking_dishes (.int i) with
  | none => .error .keyError
  | some r =>
    match st.heap.getList r with
    | none => .error .keyError
    | some refs => renderRefs st.heap refs.reverse

/-- The outer loop of `serve`: `for i in range(1, n + 1)` (line 209),
running over `count` dishes starting at dish `i`. -/
def serveRange (st : St) (c : Chef) : Int → Nat → Except Err (List String)
  | _, 0 => .ok []
  | i, Nat.succ k =>
    match renderDish st c i with
    | .error e => .error e
    | .ok out1 =>
      match serveRange st c (i + 1) k with
      | .error e => .error e
      | .ok out2 => .ok (out1 ++ out2)

/-- The `Chef.serve` (lines 176-231): a no-op without a `Serves` directive;
otherwise the requested count (an explicit argument is used only when
truthy, line 196) clamped to the number of dish dict keys (lines 199-205),
then one printed line per value. -/
def Chef.serve (st : St) (c : Chef) (number_of_servings : Option Nat) :
    Except Err (List String) :=
  match findServes c.script with
  | none => .ok []
  | some n0 =>
    let n := match number_of_servings with
      | none => n0
      | some k => if k = 0 then n0 else k
    match st.heap.getDict c.baking_dishes with
    | none => .error .keyError
    | some dishDict =>
      let n := if n > dishDict.length then dishDict.length else n
      serveRange st c 1 n

/-- Wrap a state-mutating branch result the way `parse_instruction` returns
it: propagate the abort, or return with no printed output and a `None`
(falsy) return value. -/
def asPI (c : Chef) (r : Except Err St) :
    Except Err (St × Chef × List String × Bool) :=
  match r with
  | .error e => .error e
  | .ok st1 => .ok (st1, c, [], false)

/-- Branch G body after its guard (lines 414-423): convert the ordinal, then
set the kind of every record referenced by the bowl to liquid, in place —
the records are shared with the ingredient table and any dish. -/
def Chef.liquefyBowlRun (st : St) (c : Chef) (bowl : Option String) :
    Except Err St :=
  match ordInt bowl with
  | .error e => .error e
  | .ok keyn =>
    match st.heap.dictGet c.mixing_bowls (.int keyn) with
    | none => .error .keyError
    | some listRef =>
      match st.heap.getList listRef with
      | none => .error .keyError
      | some l =>
        .ok { st with
              heap := l.foldl (fun h r => h.setItemKind r "liquid") st.heap }

/-- Branch H body (lines 437-443): `self.ingredients[name][1] = "liquid"`,
KeyError when the name is undeclared (there is no existence check). -/
def Chef.liquefyIngRun (st : St) (c : Chef) (ing : String) : Except Err St :=
  match alookup c.ingredients ing with
  | none => .error .keyError
  | some r => .ok { st with heap := st.heap.setItemKind r "liquid" }

/-- Branch I body after its guard (lines 462-469): line 466 rebinds the dict
slot to a FRESH empty list object, so other aliases of the previous list
keep the previous contents. -/
def Chef.cleanRun (st : St) (c : Chef) (bowl : Option String) : Except Err St :=
  match ordInt bowl with
  | .error e => .error e
  | .ok keyn =>
    let hr := st.heap.allocList []
    .ok { st with heap := hr.1.dictSet c.mixing_bowls (.int keyn) hr.2 }

/-- Branch J body after its guard (lines 488-495): shuffle the bowl list in
place. -/
def Chef.mixRun (env : Env) (st : St) (c : Chef) (bowl : Option String) :
    Except Err St :=
  match ordInt bowl with
  | .error e => .error e
  | .ok keyn =>
    match st.heap.dictGet c.mixing_bowls (.int keyn) with
    | none => .error .keyError
    | some listRef =>
      match st.heap.getList listRef with
      | none => .error .keyError
      | some l => .ok { st with heap := st.heap.setList listRef (env.shuffle l) }

/-- Branch K body (lines 509-519): check the ingredient exists (line 512),
then `int(input(...))` overwrites the record value in place (line 516). -/
def Chef.takeRun (st : St) (c : Chef) (ing : String) : Except Err St :=
  match alookup c.ingredients ing with
  | none => .error (.ingredientDoesNotExist ing)
  | some r =>
    match st.stdin with
    | [] => .error .eofError
    | v :: rest =>
      .ok { heap := st.heap.setItemValue r (some (.int v)), stdin := rest }

/-- Branch Q body (lines 640-682).  An unknown loop ingredient is silently
ignored (line 645); a value of exactly 0 returns without touching the
program counter, so the driving loop then steps INTO the loop body (line
647); otherwise the loop is entered and line 674 calls `self.execute`,
which is not defined on the class (AttributeError) — unless the terminator
regex of lines 661-667 already failed (IOError). -/
def Chef.loopStartRun (st : St) (c : Chef) (ing : String)
    (terminatorFound : Bool) : Except Err St :=
  match alookup c.ingredients ing with
  | none => .ok st
  | some r =>
    match st.heap.getItem r with
    | none => .error .keyError
    | some it =>
      if optIsZero it.value then .ok st
      else if terminatorFound then .error .attributeError
      else .error .ioError

/-- The `Chef.parse_instruction` (lines 234-688): one branch per `Instr`
constructor, in source order.  `cookFn` performs the nested
`sous_chef.cook()` call of the `Serve with` branch.  Returns the updated
state and chef, the lines printed by a nested serve, and the Python return
value (`True` exactly for `Set aside.`). -/
def Chef.parse_instruction
    (cookFn : St → Chef → Except Err (St × Chef × List String))
    (env : Env) (st : St) (c : Chef) (instruction : Instr) :
    Except Err (St × Chef × List String × Bool) :=
  match instruction with
  -- lines 250-251
  | .setAside => .ok (st, c, [], true)
  -- branch A (lines 259-275): Put performs no ambiguity check
  | .put ing bowl => asPI c (Chef.put st c ing bowl)
  -- branch B (lines 278-299), guard at lines 292-293
  | .fold ing bowl =>
    if bowl.isNone && has_multiple_bowls c.script then .error .bowlUnspecified
    else asPI c (Chef.fold st c ing bowl)
  -- branch C (lines 302-323), guard at lines 316-317
  | .add ing bowl =>
    if bowl.isNone && has_multiple_bowls c.script then .error .bowlUnspecified
    else asPI c (Chef.addingredient st c ing bowl)
  -- branch D (lines 326-347), guard at lines 340-341
  | .remove ing bowl =>
    if bowl.isNone && has_multiple_bowls c.script then .error .bowlUnspecified
    else asPI c (Chef.removeingredient st c ing bowl)
  -- branch E (lines 350-371), guard at lines 364-365
  | .combine ing bowl =>
    if bowl.isNone && has_multiple_bowls c.script then .error .bowlUnspecified
    else asPI c (Chef.combineingredient st c ing bowl)
  -- branch F (lines 374-395), guard at lines 388-389
  | .divide ing bowl =>
    if bowl.isNone && has_multiple_bowls c.script then .error .bowlUnspecified
    else asPI c (Chef.divideingredient st c ing bowl)
  -- branch G (lines 398-423), guard at lines 412-413
  | .liquefyBowl bowl =>
    if bowl.isNone && has_multiple_bowls c.script then .error .bowlUnspecified
    else asPI c (Chef.liquefyBowlRun st c bowl)
  -- branch H (lines 426-443): no guard, no existence check
  | .liquefyIng ing => asPI c (Chef.liquefyIngRun st c ing)
  -- branch I (lines 446-469), guard at lines 459-460
  | .clean bowl =>
    if bowl.isNone && has_multiple_bowls c.script then .error .bowlUnspecified
    else asPI c (Chef.cleanRun st c bowl)
  -- branch J (lines 472-495), guard at lines 485-486
  | .mix bowl =>
    if bowl.isNone && has_multiple_bowls c.script then .error .bowlUnspecified
    else asPI c (Chef.mixRun env st c bowl)
  -- branch K (lines 498-519)
  | .takeFridge ing => asPI c (Chef.takeRun st c ing)
  -- branch L (lines 522-544): Pour performs no ambiguity check
  | .pour bowl dish => asPI c (Chef.pour st c bowl dish)
  -- branch N (lines 576-604): sum the dry ingredient values (TypeError at
  -- `sum` if any is None), then call put() with the LIST [sum, "dry"] as
  -- the ingredient; the membership test of line 749 then hashes that list
  -- and raises TypeError.  Either way the statement aborts.
  | .addDry _bowl => .error .typeError
  -- branch O (lines 607-628)
  | .serveWith name =>
    match Chef.call_sous_chef cookFn st c name with
    | .error e => .error e
    | .ok (st1, out) => .ok (st1, c, out, false)
  -- branch Q (lines 640-682)
  | .loopStart _verb ing terminatorFound =>
    asPI c (Chef.loopStartRun st c ing terminatorFound)
  -- lines 643-644: a terminator line has `until` inside the branch-Q match
  -- and is silently skipped
  | .untilClause => .ok (st, c, [], false)
  -- line 688
  | .unrecognized => .error .instructionNotRecognised

/-- The driving loop of `Chef.cook` (lines 97-117): execute the method lines
in order, discarding the return value of `parse_instruction` (line 107). -/
def runLines
    (cookFn : St → Chef → Except Err (St × Chef × List String))
    (env : Env) : St → Chef → List Instr → Except Err (St × Chef × List String)
  | st, c, [] => .ok (st, c, [])
  | st, c, i :: rest =>
    match Chef.parse_instruction cookFn env st c i with
    | .error e => .error e
    | .ok (st1, c1, out, _setAside) =>
      match runLines cookFn env st1 c1 rest with
      | .error e => .error e
      | .ok (st2, c2, out2) => .ok (st2, c2, out ++ out2)

/-- The `Chef.cook` (lines 84-120): run the method, then serve unless
refrigerated.  The fuel counts nested interpreter activations; exhausting
it is the native Python RecursionError. -/
def Chef.cook (env : Env) : Nat → St → Chef → Except Err (St × Chef × List String)
  | 0, _, _ => .error .recursionError
  | Nat.succ fuel, st, c =>
    match runLines (fun st2 c2 => Chef.cook env fuel st2 c2) env st c c.method with
    | .error e => .error e
    | .ok (st1, c1, out) =>
      if c1.refrigerated then .ok (st1, c1, out)
      else
        match Chef.serve st1 c1 none with
        | .error e => .error e
        | .ok out2 => .ok (st1, c1, out ++ out2)

/-- Observer: the values (in stack order, bottom first) currently stored in
mixing bowl 1 of a chef. -/
def bowl1Values (st : St) (c : Chef) : Option (List (Option PyNum)) :=
  match st.heap.dictGet c.mixing_bowls (.int 1) with
  | none => none
  | some r =>
    match st.heap.getList r with
    | none => none
    | some refs => refs.mapM (fun j => (st.heap.getItem j).map Item.value)

/-- Observer: the result of a cook, reduced to the bowl-1 values and the
printed output. -/
def cookObs (env : Env) (fuel : Nat) (st : St) (c : Chef) :
    Option (Option (List (Option PyNum)) × List String) :=
  match Chef.cook env fuel st c with
  | .error _ => none
  | .ok (st1, c1, out) => some (bowl1Values st1 c1, out)

/-- A concrete environment for closed evaluations: `random.shuffle` keeps
the order. -/
def env0 : Env := { shuffle := fun l => l }

/-- The rendering required by the specification (claim C3): a dry value as
its decimal integer, a liquid value as the single Unicode character whose
code point it is.  The fall-through cases are unreachable under
`renderOKb`. -/
def specRender (it : Item) : String :=
  if it.kind = "liquid" then
    match it.value with
    | some (.int v) => String.singleton (Char.ofNat v.toNat)
    | _ => ""
  else
    match it.value with
    | some (.int v) => toString v
    | _ => ""

/-- A record that both the code and the specification render without
aborting: an integer value, and for a liquid one a valid Unicode scalar
code point. -/
def renderOKb (it : Item) : Bool :=
  if it.kind = "liquid" then
    match it.value with
    | some (.int v) =>
      decide (0 ≤ v) &&
        (decide (v < 55296) || (decide (57343 < v) && decide (v < 1114112)))
    | _ => false
  else
    match it.value with
    | some (.int _) => true
    | _ => false

/-- Resolve a list of references through an option-valued reader. -/
def omapM (f : α → Option β) : List α → Option (List β)
  | [] => some []
  | a :: rest =>
    match f a, omapM f rest with
    | some b, some bs => some (b :: bs)
    | _, _ => none

/-- The items stored in one container list object. -/
def readDishItems (h : Heap) (r : Nat) : Option (List Item) :=
  (h.getList r).bind (omapM h.getItem)

/-- The output the specification demands (claim C3) for `count` dishes
starting at dish `i`: each dish contributes its items in reverse of stack
order, rendered by `specRender`, dish by dish. -/
def specServeFrom (contents : Int → List Item) : Int → Nat → List String
  | _, 0 => []
  | i, Nat.succ k =>
    ((contents i).reverse).map specRender ++ specServeFrom contents (i + 1) k

/-- The statements whose branch validates an omitted bowl ordinal against
`has_multiple_bowls` (guards at lines 292, 316, 340, 364, 388, 412, 459 and
485). -/
def Instr.checksBowlOmission : Instr → Bool
  | .fold _ _ | .add _ _ | .remove _ _ | .combine _ _ | .divide _ _
  | .liquefyBowl _ | .clean _ | .mix _ => true
  | _ => false

/-- The bowl-ordinal capture of a guarded statement (`none` elsewhere). -/
def Instr.bowlGroup : Instr → Option String
  | .fold _ b | .add _ b | .remove _ b | .combine _ b | .divide _ b
  | .liquefyBowl b | .clean b | .mix b => b
  | _ => none

/-- Is the statement an auxiliary-recipe call?  Its nested cook could
surface any error of the callee, so claim C4 excludes it. -/
def Instr.isServeWith : Instr → Bool
  | .serveWith _ => true
  | _ => false

/-!  Concrete machine states used by the claim theorems.  Each is a state
the interpreter reaches from the constructor: fresh bowl and dish dicts
holding bowl 1 and dish 1, and one heap record per declared ingredient. -/

/-- C1 state: one dry ingredient `x` with value 1. -/
def hC1 : Heap :=
  { items := [⟨some (.int 1), "dry", "x"⟩], lists := [[], []],
    dicts := [[(BKey.int 1, 0)], [(BKey.int 1, 1)]] }

/-- C1 chef: `Put x into mixing bowl.` then `Take x from refrigerator.` -/
def cC1 : Chef :=
  { script := "Alias test.\n\nIngredients.\n1 x\n\nMethod.\nPut x into mixing bowl.\nTake x from refrigerator.\n\n",
    comment := some "A recipe.", ingredients := [("x", 0)],
    method := [.put "x" none, .takeFridge "x"],
    mixing_bowls := 0, baking_dishes := 1, aux_table := [],
    refrigerated := false }

/-- C2 auxiliary recipe: one ingredient `y` of value 5, method
`Put y into mixing bowl.`, no Serves directive. -/
def auxC2 : AuxRecipe :=
  { script := "Sauce.\n\nIngredients.\n5 y\n\nMethod.\nPut y into mixing bowl.\n\n",
    decls := [⟨some (.int 5), "dry", "y"⟩], method := [.put "y" none] }

/-- C2 state: caller bowl 1 already holds the record of `x` (value 1). -/
def hC2 : Heap :=
  { items := [⟨some (.int 1), "dry", "x"⟩], lists := [[0], []],
    dicts := [[(BKey.int 1, 0)], [(BKey.int 1, 1)]] }

/-- C2 caller: method `Serve with Sauce.` -/
def cC2 : Chef :=
  { script := "Main.\n\nIngredients.\n1 x\n\nMethod.\nServe with Sauce.\n\n",
    comment := some "A recipe with a sauce.", ingredients := [("x", 0)],
    method := [.serveWith "Sauce."],
    mixing_bowls := 0, baking_dishes := 1, aux_table := [("Sauce.", auxC2)],
    refrigerated := false }

/-- C3 witness state: dish 1 holds a dry 72 pushed first and a liquid 72
pushed second. -/
def hC3 : Heap :=
  { items := [⟨some (.int 72), "dry", "z"⟩, ⟨some (.int 72), "liquid", "w"⟩],
    lists := [[], [0, 1]], dicts := [[(BKey.int 1, 0)], [(BKey.int 1, 1)]] }

/-- C3 witness chef: a script with `Serves 1.` -/
def cC3 : Chef :=
  { script := "Serve test.\n\nIngredients.\n72 z\n72 ml w\n\nMethod.\nPut z into mixing bowl.\n\nServes 1.\n",
    comment := some "A recipe.", ingredients := [("z", 0), ("w", 1)],
    method := [],
    mixing_bowls := 0, baking_dishes := 1, aux_table := [],
    refrigerated := false }

/-- C3 witness dish contents, bottom first. -/
def itsC3 : List Item :=
  [⟨some (.int 72), "dry", "z"⟩, ⟨some (.int 72), "liquid", "w"⟩]

/-- C4 state: one dry ingredient `x` with value 7. -/
def hC4 : Heap :=
  { items := [⟨some (.int 7), "dry", "x"⟩], lists := [[], []],
    dicts := [[(BKey.int 1, 0)], [(BKey.int 1, 1)]] }

/-- C4 chef: the script references the 2nd mixing bowl, yet the method puts
with the ordinal omitted. -/
def cC4 : Chef :=
  { script := "Ambiguity test.\n\nIngredients.\n7 x\n\nMethod.\nPut x into mixing bowl.\nClean 2nd mixing bowl.\n\n",
    comment := some "A recipe.", ingredients := [("x", 0)],
    method := [.put "x" none],
    mixing_bowls := 0, baking_dishes := 1, aux_table := [],
    refrigerated := false }

/-- C5/C6 state: loop ingredient `sugar` with value exactly 0, and `salt`
with value 3. -/
def hC5 : Heap :=
  { items := [⟨some (.int 0), "dry", "sugar"⟩, ⟨some (.int 3), "dry", "salt"⟩],
    lists := [[], []], dicts := [[(BKey.int 1, 0)], [(BKey.int 1, 1)]] }

/-- C5 chef: `Shake the sugar.` / `Put salt into mixing bowl.` /
`Shaked the sugar until shaked.` with sugar = 0. -/
def cC5 : Chef :=
  { script := "Loop test.\n\nIngredients.\nsugar\n3 salt\n\nMethod.\nShake the sugar.\nPut salt into mixing bowl.\nShaked the sugar until shaked.\n\n",
    comment := some "A recipe.", ingredients := [("sugar", 0), ("salt", 1)],
    method := [.loopStart "Shake" "sugar" true, .put "salt" none, .untilClause],
    mixing_bowls := 0, baking_dishes := 1, aux_table := [],
    refrigerated := false }

/-- C6 chef: as C5 but with `Set aside.` as the first body line. -/
def cC6 : Chef :=
  { script := "Loop test.\n\nIngredients.\nsugar\n3 salt\n\nMethod.\nShake the sugar.\nSet aside.\nPut salt into mixing bowl.\nShaked the sugar until shaked.\n\n",
    comment := some "A recipe.", ingredients := [("sugar", 0), ("salt", 1)],
    method := [.loopStart "Shake" "sugar" true, .setAside, .put "salt" none,
               .untilClause],
    mixing_bowls := 0, baking_dishes := 1, aux_table := [],
    refrigerated := false }

/-- C7 state: empty containers. -/
def hC7 : Heap :=
  { items := [], lists := [[], []],
    dicts := [[(BKey.int 1, 0)], [(BKey.int 1, 1)]] }

/-- C7 auxiliary recipe that calls itself. -/
def auxC7 : AuxRecipe :=
  { script := "Endless sauce.\n\nIngredients.\n1 z\n\nMethod.\nServe with Endless sauce.\n\n",
    decls := [⟨some (.int 1), "dry", "z"⟩],
    method := [.serveWith "Endless sauce."] }

/-- C7 top-level chef calling the cyclic auxiliary recipe. -/
def cC7 : Chef :=
  { script := "Main.\n\nIngredients.\n1 x\n\nMethod.\nServe with Endless sauce.\n\n",
    comment := some "A recipe.", ingredients := [],
    method := [.serveWith "Endless sauce."],
    mixing_bowls := 0, baking_dishes := 1,
    aux_table := [("Endless sauce.", auxC7)], refrigerated := false }

/-- C7 witness chef: a sous-chef-shaped chef, whose comment is `None`. -/
def cC7s : Chef :=
  { script := "Endless sauce.\n\nIngredients.\n1 z\n\nMethod.\nServe with Endless sauce.\n\n",
    comment := none, ingredients := [("z", 0)],
    method := [.serveWith "Endless sauce."],
    mixing_bowls := 0, baking_dishes := 1, aux_table := [],
    refrigerated := false }

/-- C8 state: ingredient `x` declared without a quantity (value `None`),
bowl top is the record of `t` with value 7. -/
def hC8 : Heap :=
  { items := [⟨none, "dry", "x"⟩, ⟨some (.int 7), "dry", "t"⟩],
    lists := [[1], []], dicts := [[(BKey.int 1, 0)], [(BKey.int 1, 1)]] }

/-- C8 chef: `Add x to mixing bowl.` with x absent. -/
def cC8 : Chef :=
  { script := "Add test.\n\nIngredients.\nx\n7 t\n\nMethod.\nAdd x to mixing bowl.\n\n",
    comment := some "A recipe.", ingredients := [("x", 0), ("t", 1)],
    method := [.add "x" none],
    mixing_bowls := 0, baking_dishes := 1, aux_table := [],
    refrigerated := false }

/-- C9 state: the module-level default containers, plus the record of the
first chef ingredient `x` with value 7. -/
def hC9 : Heap := { initialHeap with items := [⟨some (.int 7), "dry", "x"⟩] }

/-- C9 first chef, built without container arguments. -/
def c1C9 : Chef :=
  Chef.init "First recipe.\n\n" none [("x", 0)] [] [] none none

/-- C9 second chef, built without container arguments. -/
def c2C9 : Chef :=
  Chef.init "Second recipe.\n\n" none [] [] [] none none

/-- C10 state: bowl 1 holds the record of `x` (value 7); the dish dict
object exists but is empty — no dish has been created yet. -/
def hC10 : Heap :=
  { items := [⟨some (.int 7), "dry", "x"⟩], lists := [[0]],
    dicts := [[(BKey.int 1, 0)], []] }

/-- C10 chef. -/
def cC10 : Chef :=
  { script := "Pour test.\n\nIngredients.\n7 x\n\nMethod.\nPour contents of the mixing bowl into the baking dish.\n\n",
    comment := some "A recipe.", ingredients := [("x", 0)],
    method := [.pour none none],
    mixing_bowls := 0, baking_dishes := 1, aux_table := [],
    refrigerated := false }

/-! Helper lemmas: no statement handler ever produces the ambiguity error —
the abort with message "Bowl number unspecified." happens only in the guards of
`parse_instruction` itself. -/

theorem ordInt_ne_ambig (b : Option String) :
    ordInt b ≠ .error .bowlUnspecified := by
  unfold ordInt pyInt
  intro h
  repeat' first
  | split at h
  | dsimp only [] at h
  all_goals simp_all

theorem divF_ne_ambig (a b : PyNum) : a.divF b ≠ .error .bowlUnspecified := by
  unfold PyNum.divF
  intro h
  repeat' first
  | split at h
  | dsimp only [] at h
  all_goals simp_all

theorem put_ne_ambig (st : St) (c : Chef) (i : String) (b : Option String) :
    Chef.put st c i b ≠ .error .bowlUnspecified := by
  unfold Chef.put
  intro h
  repeat' first
  | split at h
  | dsimp only [] at h
  all_goals simp_all

theorem fold_ne_ambig (st : St) (c : Chef) (i : String) (b : Option String) :
    Chef.fold st c i b ≠ .error .bowlUnspecified := by
  unfold Chef.fold
  intro h
  repeat' first
  | split at h
  | dsimp only [] at h
  all_goals simp_all [ordInt_ne_ambig]

theorem add_ne_ambig (st : St) (c : Chef) (i : String) (b : Option String) :
    Chef.addingredient st c i b ≠ .error .bowlUnspecified := by
  unfold Chef.addingredient
  intro h
  repeat' first
  | split at h
  | dsimp only [] at h
  all_goals simp_all

theorem remove_ne_ambig (st : St) (c : Chef) (i : String) (b : Option String) :
    Chef.removeingredient st c i b ≠ .error .bowlUnspecified := by
  unfold Chef.removeingredient
  intro h
  repeat' first
  | split at h
  | dsimp only [] at h
  all_goals simp_all

theorem combine_ne_ambig (st : St) (c : Chef) (i : String) (b : Option String) :
    Chef.combineingredient st c i b ≠ .error .bowlUnspecified := by
  unfold Chef.combineingredient
  intro h
  repeat' first
  | split at h
  | dsimp only [] at h
  all_goals simp_all

theorem divide_ne_ambig (st : St) (c : Chef) (i : String) (b : Option String) :
    Chef.divideingredient st c i b ≠ .error .bowlUnspecified := by
  unfold Chef.divideingredient
  intro h
  repeat' first
  | split at h
  | dsimp only [] at h
  all_goals simp_all [divF_ne_ambig]

theorem pour_ne_ambig (st : St) (c : Chef) (b d : Option String) :
    Chef.pour st c b d ≠ .error .bowlUnspecified := by
  unfold Chef.pour
  intro h
  repeat' first
  | split at h
  | dsimp only [] at h
  all_goals simp_all [ordInt_ne_ambig]

theorem liquefyBowlRun_ne_ambig (st : St) (c : Chef) (b : Option String) :
    Chef.liquefyBowlRun st c b ≠ .error .bowlUnspecified := by
  unfold Chef.liquefyBowlRun
  intro h
  repeat' first
  | split at h
  | dsimp only [] at h
  all_goals simp_all [ordInt_ne_ambig]

theorem liquefyIngRun_ne_ambig (st : St) (c : Chef) (i : String) :
    Chef.liquefyIngRun st c i ≠ .error .bowlUnspecified := by
  unfold Chef.liquefyIngRun
  intro h
  repeat' first
  | split at h
  | dsimp only [] at h
  all_goals simp_all

theorem cleanRun_ne_ambig (st : St) (c : Chef) (b : Option String) :
    Chef.cleanRun st c b ≠ .error .bowlUnspecified := by
  unfold Chef.cleanRun
  intro h
  repeat' first
  | split at h
  | dsimp only [] at h
  all_goals simp_all [ordInt_ne_ambig]

theorem mixRun_ne_ambig (env : Env) (st : St) (c : Chef) (b : Option String) :
    Chef.mixRun env st c b ≠ .error .bowlUnspecified := by
  unfold Chef.mixRun
  intro h
  repeat' first
  | split at h
  | dsimp only [] at h
  all_goals simp_all [ordInt_ne_ambig]

theorem takeRun_ne_ambig (st : St) (c : Chef) (i : String) :
    Chef.takeRun st c i ≠ .error .bowlUnspecified := by
  unfold Chef.takeRun
  intro h
  repeat' first
  | split at h
  | dsimp only [] at h
  all_goals simp_all

theorem loopStartRun_ne_ambig (st : St) (c : Chef) (i : String) (tf : Bool) :
    Chef.loopStartRun st c i tf ≠ .error .bowlUnspecified := by
  unfold Chef.loopStartRun
  intro h
  repeat' first
  | split at h
  | dsimp only [] at h
  all_goals simp_all

theorem asPI_eq_ambig (c : Chef) (r : Except Err St) :
    (asPI c r = .error .bowlUnspecified) ↔ r = .error .bowlUnspecified := by
  cases r <;> simp [asPI]

/-- C4: amended.  The ambiguity validation of an omitted bowl ordinal
against `has_multiple_bowls` happens exactly in the Fold, Add, Remove,
Combine, Divide, Liquefy-contents, Clean and Mix branches; Put, Pour,
Add-dry, and every other modelled statement never raise it, a present
ordinal never raises it, and a recipe without a reference to an ordinal of
2 or more never raises it.  (The baking-dish family is never validated at
all.)  Auxiliary-recipe calls are excluded, since their nested cook
surfaces arbitrary callee errors. -/
theorem c4_omission_check_characterisation
    (cookFn : St → Chef → Except Err (St × Chef × List String))
    (env : Env) (st : St) (c : Chef) (ins : Instr)
    (hns : ins.isServeWith = false) :
    Chef.parse_instruction cookFn env st c ins = .error .bowlUnspecified ↔
      (ins.checksBowlOmission = true ∧ ins.bowlGroup = none ∧
       has_multiple_bowls c.script = true) := by
  cases ins with
  | serveWith name => simp [Instr.isServeWith] at hns
  | setAside =>
    simp [Chef.parse_instruction, Instr.checksBowlOmission, Instr.bowlGroup]
  | untilClause =>
    simp [Chef.parse_instruction, Instr.checksBowlOmission, Instr.bowlGroup]
  | unrecognized =>
    simp [Chef.parse_instruction, Instr.checksBowlOmission, Instr.bowlGroup]
  | addDry b =>
    simp [Chef.parse_instruction, Instr.checksBowlOmission, Instr.bowlGroup]
  | put ing bowl =>
    simp [Chef.parse_instruction, Instr.checksBowlOmission, Instr.bowlGroup,
      asPI_eq_ambig, put_ne_ambig st c ing bowl]
  | liquefyIng ing =>
    simp [Chef.parse_instruction, Instr.checksBowlOmission, Instr.bowlGroup,
      asPI_eq_ambig, liquefyIngRun_ne_ambig st c ing]
  | takeFridge ing =>
    simp [Chef.parse_instruction, Instr.checksBowlOmission, Instr.bowlGroup,
      asPI_eq_ambig, takeRun_ne_ambig st c ing]
  | pour b d =>
    simp [Chef.parse_instruction, Instr.checksBowlOmission, Instr.bowlGroup,
      asPI_eq_ambig, pour_ne_ambig st c b d]
  | loopStart v ing tf =>
    simp [Chef.parse_instruction, Instr.checksBowlOmission, Instr.bowlGroup,
      asPI_eq_ambig, loopStartRun_ne_ambig st c ing tf]
  | fold ing bowl =>
    simp only [Chef.parse_instruction, Instr.checksBowlOmission,
      Instr.bowlGroup, true_and]
    cases hb : (bowl.isNone && has_multiple_bowls c.script) with
    | true =>
      simp only [Bool.and_eq_true, Option.isNone_iff_eq_none] at hb
      simp [hb.1, hb.2]
    | false =>
      simp only [Bool.and_eq_true, Option.isNone_iff_eq_none,
        Bool.and_eq_false_iff] at hb
      simp [asPI_eq_ambig, fold_ne_ambig st c ing bowl]
      rintro rfl
      rcases hb with hb | hb
      · simp [Option.isNone_none] at hb
      · simp [hb]
  | add ing bowl =>
    simp only [Chef.parse_instruction, Instr.checksBowlOmission,
      Instr.bowlGroup, true_and]
    cases hb : (bowl.isNone && has_multiple_bowls c.script) with
    | true =>
      simp only [Bool.and_eq_true, Option.isNone_iff_eq_none] at hb
      simp [hb.1, hb.2]
    | false =>
      simp only [Bool.and_eq_true, Option.isNone_iff_eq_none,
        Bool.and_eq_false_iff] at hb
      simp [asPI_eq_ambig, add_ne_ambig st c ing bowl]
      rintro rfl
      rcases hb with hb | hb
      · simp [Option.isNone_none] at hb
      · simp [hb]
  | remove ing bowl =>
    simp only [Chef.parse_instruction, Instr.checksBowlOmission,
      Instr.bowlGroup, true_and]
    cases hb : (bowl.isNone && has_multiple_bowls c.script) with
    | true =>
      simp only [Bool.and_eq_true, Option.isNone_iff_eq_none] at hb
      simp [hb.1, hb.2]
    | false =>
      simp only [Bool.and_eq_true, Option.isNone_iff_eq_none,
        Bool.and_eq_false_iff] at hb
      simp [asPI_eq_ambig, remove_ne_ambig st c ing bowl]
      rintro rfl
      rcases hb with hb | hb
      · simp [Option.isNone_none] at hb
      · simp [hb]
  | combine ing bowl =>
    simp only [Chef.parse_instruction, Instr.checksBowlOmission,
      Instr.bowlGroup, true_and]
    cases hb : (bowl.isNone && has_multiple_bowls c.script) with
    | true =>
      simp only [Bool.and_eq_true, Option.isNone_iff_eq_none] at hb
      simp [hb.1, hb.2]
    | false =>
      simp only [Bool.and_eq_true, Option.isNone_iff_eq_none,
        Bool.and_eq_false_iff] at hb
      simp [asPI_eq_ambig, combine_ne_ambig st c ing bowl]
      rintro rfl
      rcases hb with hb | hb
      · simp [Option.isNone_none] at hb
      · simp [hb]
  | divide ing bowl =>
    simp only [Chef.parse_instruction, Instr.checksBowlOmission,
      Instr.bowlGroup, true_and]
    cases hb : (bowl.isNone && has_multiple_bowls c.script) with
    | true =>
      simp only [Bool.and_eq_true, Option.isNone_iff_eq_none] at hb
      simp [hb.1, hb.2]
    | false =>
      simp only [Bool.and_eq_true, Option.isNone_iff_eq_none,
        Bool.and_eq_false_iff] at hb
      simp [asPI_eq_ambig, divide_ne_ambig st c ing bowl]
      rintro rfl
      rcases hb with hb | hb
      · simp [Option.isNone_none] at hb
      · simp [hb]
  | liquefyBowl bowl =>
    simp only [Chef.parse_instruction, Instr.checksBowlOmission,
      Instr.bowlGroup, true_and]
    cases hb : (bowl.isNone && has_multiple_bowls c.script) with
    | true =>
      simp only [Bool.and_eq_true, Option.isNone_iff_eq_none] at hb
      simp [hb.1, hb.2]
    | false =>
      simp only [Bool.and_eq_true, Option.isNone_iff_eq_none,
        Bool.and_eq_false_iff] at hb
      simp [asPI_eq_ambig, liquefyBowlRun_ne_ambig st c bowl]
      rintro rfl
      rcases hb with hb | hb
      · simp [Option.isNone_none] at hb
      · simp [hb]
  | clean bowl =>
    simp only [Chef.parse_instruction, Instr.checksBowlOmission,
      Instr.bowlGroup, true_and]
    cases hb : (bowl.isNone && has_multiple_bowls c.script) with
    | true =>
      simp only [Bool.and_eq_true, Option.isNone_iff_eq_none] at hb
      simp [hb.1, hb.2]
    | false =>
      simp only [Bool.and_eq_true, Option.isNone_iff_eq_none,
        Bool.and_eq_false_iff] at hb
      simp [asPI_eq_ambig, cleanRun_ne_ambig st c bowl]
      rintro rfl
      rcases hb with hb | hb
      · simp [Option.isNone_none] at hb
      · simp [hb]
  | mix bowl =>
    simp only [Chef.parse_instruction, Instr.checksBowlOmission,
      Instr.bowlGroup, true_and]
    cases hb : (bowl.isNone && has_multiple_bowls c.script) with
    | true =>
      simp only [Bool.and_eq_true, Option.isNone_iff_eq_none] at hb
      simp [hb.1, hb.2]
    | false =>
      simp only [Bool.and_eq_true, Option.isNone_iff_eq_none,
        Bool.and_eq_false_iff] at hb
      simp [asPI_eq_ambig, mixRun_ne_ambig env st c bowl]
      rintro rfl
      rcases hb with hb | hb
      · simp [Option.isNone_none] at hb
      · simp [hb]

/-- C4: counterexample to the claim as stated.  The recipe script references
the 2nd mixing bowl, the method executes `Put x into mixing bowl.` with the
ordinal omitted, yet the run succeeds (bowl 1 receives the value 7 and
nothing is printed) instead of failing with the static AmbiguousReference
error the claim requires. -/
theorem c4_put_omission_not_checked :
    has_multiple_bowls cC4.script = true ∧
    cookObs env0 1 { heap := hC4, stdin := [] } cC4
      = some (some [some (.int 7)], []) := by decide

/-- C4: witness for the amended characterisation, at the concrete statement
`Fold x into mixing bowl.` with the ordinal omitted in a recipe whose
script references the 2nd mixing bowl. -/
theorem c4_omission_check_characterisation_witness :
    Chef.parse_instruction (fun st2 c2 => Chef.cook env0 1 st2 c2) env0
      { heap := hC4, stdin := [] } cC4 (.fold "x" none)
      = .error .bowlUnspecified :=
  (c4_omission_check_characterisation (fun st2 c2 => Chef.cook env0 1 st2 c2)
    env0 { heap := hC4, stdin := [] } cC4 (.fold "x" none) (by decide)).mpr
    (by decide)

/-- C1: the value stored by `Put` is NOT a copy.  Line 755 appends the
ingredient record itself, so the later `Take x from refrigerator.`
(standard input supplies 5) mutates the record in place and the entry
already stored in bowl 1 reads 5, not the 1 it held when it was put. -/
theorem c1_put_stores_reference :
    cookObs env0 1 { heap := hC1, stdin := [5] } cC1
      = some (some [some (.int 5)], []) := by decide

/-- C2: the sous-chef context is NOT a deep copy.  `copy.copy` shares the
bowl list objects, so the callee `Put y` (value 5) lands in the caller
bowl 1 during the call, and the merge of line 737 then extends that list
with itself: from `[1]` the caller ends with `[1, 5, 1, 5]`, not the
`[1, 1, 5]` that deep-copy-plus-append semantics demands. -/
theorem c2_sous_chef_shares_bowls :
    cookObs env0 3 { heap := hC2, stdin := [] } cC2
      = some (some [some (.int 1), some (.int 5), some (.int 1), some (.int 5)],
              []) := by decide

/-- C5: a loop whose ingredient value is exactly 0 does NOT skip its body.
Branch Q merely returns (line 647), the driving loop of `cook` increments
the program counter, and the body line `Put salt into mixing bowl.` runs as
straight-line code: bowl 1 ends holding 3 although sugar = 0 demanded zero
iterations and an empty bowl. -/
theorem c5_zero_loop_body_still_runs :
    cookObs env0 1 { heap := hC5, stdin := [] } cC5
      = some (some [some (.int 3)], []) := by decide

/-- C6: `Set aside.` does NOT end the loop.  In the only loop path that can
execute body lines (the value-0 fall-through; `cook_loop`, which implements
the claimed semantics, is never called), `parse_instruction` returns True
but `cook` discards it at line 107, so the body line AFTER `Set aside.`
still executes and bowl 1 ends holding 3 instead of execution resuming
after the terminator. -/
theorem c6_set_aside_does_not_exit_loop :
    cookObs env0 1 { heap := hC5, stdin := [] } cC6
      = some (some [some (.int 3)], []) := by decide

/-- C7: counterexample to the claim as stated.  A cyclic auxiliary call
chain does not fail with any RecursionLimitExceeded error (no such error
exists in the code): the first nested call the sous-chef makes aborts with
an unhandled TypeError, because the sous-chef script has no comment and
line 1365 calls `str.replace(None, ...)`. -/
theorem c7_cyclic_call_type_error :
    Chef.cook env0 10 { heap := hC7, stdin := [] } cC7
      = .error .typeError := by decide

/-- C7: amended.  Any `Serve with ...` statement executed by a chef whose
comment is `None` — which is the case for every sous-chef, since auxiliary
scripts carry no comment paragraph — aborts with TypeError while computing
the auxiliary-recipe table, before any recursive call is made; so a call
cycle can never recurse, with or without a depth cap. -/
theorem c7_sous_chef_call_always_type_error
    (cookFn : St → Chef → Except Err (St × Chef × List String))
    (env : Env) (st : St) (c : Chef) (name : String)
    (hc : c.comment = none) :
    Chef.parse_instruction cookFn env st c (.serveWith name)
      = .error .typeError := by
  simp [Chef.parse_instruction, Chef.call_sous_chef, Chef.auxiliary_recipes, hc]

/-- C7: witness for the amended statement at the concrete sous-chef-shaped
chef `cC7s`. -/
theorem c7_sous_chef_call_always_type_error_witness :
    Chef.parse_instruction (fun st2 c2 => Chef.cook env0 1 st2 c2) env0
      { heap := hC7, stdin := [] } cC7s (.serveWith "Endless sauce.")
      = .error .typeError :=
  c7_sous_chef_call_always_type_error (fun st2 c2 => Chef.cook env0 1 st2 c2)
    env0 { heap := hC7, stdin := [] } cC7s "Endless sauce." rfl

/-- C8: `Add` with an absent ingredient value does NOT treat it as 0.
`addingredient` reads the raw value (line 811) and line 818 performs
`top += None`, an unhandled TypeError, where the claim demands a no-op and
normal continuation. -/
theorem c8_add_absent_value_type_error :
    Chef.cook env0 1 { heap := hC8, stdin := [] } cC8
      = .error .typeError := by decide

/-- C9: two chefs built without explicit container arguments share the
module-level default dicts (Python evaluates default arguments once), so a
`Put` executed through the first chef is visible when bowl 1 is read
through the second; execution contexts are not isolated by construction. -/
theorem c9_default_containers_shared :
    (∀ (s1 s2 : String) (cm1 cm2 : Option String)
        (i1 i2 : List (String × Nat)) (m1 m2 : List Instr)
        (a1 a2 : List (String × AuxRecipe)),
      (Chef.init s1 cm1 i1 m1 a1 none none).mixing_bowls
          = (Chef.init s2 cm2 i2 m2 a2 none none).mixing_bowls ∧
        (Chef.init s1 cm1 i1 m1 a1 none none).baking_dishes
          = (Chef.init s2 cm2 i2 m2 a2 none none).baking_dishes) ∧
    (Chef.put { heap := hC9, stdin := [] } c1C9 "x" none).map
        (fun st1 => bowl1Values st1 c2C9)
      = .ok (some [some (.int 7)]) :=
  ⟨fun _ _ _ _ _ _ _ _ _ _ => ⟨rfl, rfl⟩, by decide⟩

/-- C10: counterexample to the claim as stated.  Pouring into the (absent)
2nd baking dish is not a silent creation: the ordinal capture `2` is
sliced to the empty string and `int("")` aborts with ValueError before the
dish-creation line is reached. -/
theorem c10_pour_explicit_ordinal_value_error :
    Chef.pour { heap := hC10, stdin := [] } cC10 none (some "2")
      = .error .valueError := by decide

theorem renderItem_ok (it : Item) (h : renderOKb it = true) :
    renderItem it = .ok (specRender it) := by
  unfold renderOKb at h
  split at h
  · rename_i hk
    split at h
    · rename_i n hv
      simp only [Bool.and_eq_true, Bool.or_eq_true, decide_eq_true_eq] at h
      unfold renderItem specRender pyChr
      rw [if_pos hk, if_pos hk, hv]
      dsimp only
      rw [if_neg (by omega), if_neg (by omega), if_neg (by omega)]
    · simp at h
  · rename_i hk
    split at h
    · rename_i n hv
      unfold renderItem specRender pyStrOpt PyNum.pyStr
      rw [if_neg hk, if_neg hk, hv]
    · simp at h

theorem omapM_append (f : α → Option β) (l1 l2 : List α) :
    omapM f (l1 ++ l2)
      = (omapM f l1).bind (fun a => (omapM f l2).map (fun b => a ++ b)) := by
  induction l1 with
  | nil => cases h2 : omapM f l2 <;> simp [omapM, h2]
  | cons a rest ih =>
    cases hf : f a <;> simp [omapM, hf, ih] <;>
      cases omapM f rest <;> simp <;> cases omapM f l2 <;> simp

theorem omapM_reverse (f : α → Option β) (l : List α) (bs : List β)
    (h : omapM f l = some bs) : omapM f l.reverse = some bs.reverse := by
  induction l generalizing bs with
  | nil =>
    simp [omapM] at h
    subst h
    simp [omapM]
  | cons a rest ih =>
    rw [List.reverse_cons]
    cases hf : f a <;> cases hr : omapM f rest <;> simp [omapM, hf, hr] at h
    subst h
    rw [omapM_append, ih _ hr]
    simp [omapM, hf]

theorem renderRefs_spec (h : Heap) (refs : List Nat) (its : List Item)
    (hm : omapM h.getItem refs = some its)
    (hok : ∀ it ∈ its, renderOKb it = true) :
    renderRefs h refs = .ok (its.map specRender) := by
  induction refs generalizing its with
  | nil =>
    simp [omapM] at hm
    subst hm
    simp [renderRefs]
  | cons r rest ih =>
    cases hg : h.getItem r <;> cases hr : omapM h.getItem rest <;>
      simp [omapM, hg, hr] at hm
    subst hm
    rename_i itm its2
    simp [renderRefs, hg, renderItem_ok itm (hok itm (List.mem_cons_self itm its2)),
      ih its2 hr (fun it hit => hok it (List.mem_cons_of_mem itm hit))]

theorem renderDish_spec (st : St) (c : Chef) (i : Int) (r : Nat)
    (its : List Item)
    (h1 : st.heap.dictGet c.baking_dishes (.int i) = some r)
    (h2 : readDishItems st.heap r = some its)
    (h3 : ∀ it ∈ its, renderOKb it = true) :
    renderDish st c i = .ok (its.reverse.map specRender) := by
  unfold renderDish
  rw [h1]
  unfold readDishItems at h2
  cases hg : st.heap.getList r <;> rw [hg] at h2 <;> simp at h2
  dsimp only
  rw [hg]
  exact renderRefs_spec st.heap _ its.reverse (omapM_reverse _ _ _ h2)
    (fun it hit => h3 it (List.mem_reverse.mp hit))

theorem serveRange_spec (st : St) (c : Chef) (dishRef : Int → Nat)
    (contents : Int → List Item) (k : Nat) :
    ∀ (i : Int),
      (∀ j : Int, i ≤ j → j < i + k →
        st.heap.dictGet c.baking_dishes (.int j) = some (dishRef j)) →
      (∀ j : Int, i ≤ j → j < i + k →
        readDishItems st.heap (dishRef j) = some (contents j)) →
      (∀ j : Int, i ≤ j → j < i + k →
        ∀ it ∈ contents j, renderOKb it = true) →
      serveRange st c i k = .ok (specServeFrom contents i k) := by
  induction k with
  | zero => intro i _ _ _; rfl
  | succ k ih =>
    intro i hd hr hok
    unfold serveRange
    rw [renderDish_spec st c i (dishRef i) (contents i)
      (hd i le_rfl (by push_cast; omega))
      (hr i le_rfl (by push_cast; omega))
      (hok i le_rfl (by push_cast; omega))]
    rw [ih (i + 1)
      (fun j hj1 hj2 => hd j (by omega) (by push_cast at hj2 ⊢; omega))
      (fun j hj1 hj2 => hr j (by omega) (by push_cast at hj2 ⊢; omega))
      (fun j hj1 hj2 => hok j (by omega) (by push_cast at hj2 ⊢; omega))]
    rfl

/-- C3: for a run whose recipe has a Serves directive naming `N` dishes
(all present as dishes 1..N with well-rendered values), `serve` emits, dish
by dish from 1 to N, each dish in reverse of stack order — the value pushed
earliest emitted last — rendering a dry value as its decimal integer and a
liquid value as the single Unicode character whose code point it is, one
value per output line. -/
theorem c3_serve_renders_dishes
    (st : St) (c : Chef) (N : Nat) (dd : List (BKey × Nat))
    (dishRef : Int → Nat) (contents : Int → List Item)
    (hserves : findServes c.script = some N)
    (hdict : st.heap.getDict c.baking_dishes = some dd)
    (hlen : N ≤ dd.length)
    (hkeys : ∀ j : Int, 1 ≤ j → j < 1 + N →
      alookup dd (BKey.int j) = some (dishRef j))
    (hitems : ∀ j : Int, 1 ≤ j → j < 1 + N →
      readDishItems st.heap (dishRef j) = some (contents j))
    (hok : ∀ j : Int, 1 ≤ j → j < 1 + N →
      ∀ it ∈ contents j, renderOKb it = true) :
    Chef.serve st c none = .ok (specServeFrom contents 1 N) := by
  unfold Chef.serve
  rw [hserves, hdict]
  dsimp only
  rw [if_neg (by omega)]
  exact serveRange_spec st c dishRef contents N 1
    (fun j hj1 hj2 => by
      rw [Heap.dictGet, hdict]
      exact hkeys j hj1 hj2)
    hitems hok

/-- C3 witness: dish 1 holding a dry 72 (pushed first) and a liquid 72
(pushed second) serves as the character `H` then the digits `72`. -/
theorem c3_serve_renders_dishes_witness :
    Chef.serve { heap := hC3, stdin := [] } cC3 none = .ok ["H", "72"] := by
  have h := c3_serve_renders_dishes { heap := hC3, stdin := [] } cC3 1
    [(BKey.int 1, 1)] (fun _ => 1) (fun _ => itsC3)
    (by decide) (by decide) (by decide)
    (fun j h1 h2 => by
      have hj : j = 1 := by omega
      subst hj
      decide)
    (fun j h1 h2 => by
      have hj : j = 1 := by omega
      subst hj
      decide)
    (fun j h1 h2 it hit => by
      simp only [itsC3, List.mem_cons, List.not_mem_nil, or_false] at hit
      rcases hit with rfl | rfl <;> decide)
  have h2 : specServeFrom (fun _ => itsC3) 1 1 = ["H", "72"] := by decide
  rw [h2] at h
  exact h

theorem dropRight2_short (s : String) (hs : s.data.length ≤ 2) :
    (dropRight2 s).data = [] := by
  have h1 : (dropRight2 s).data = s.data.dropLast.dropLast := rfl
  rw [h1]
  have := s.data.length_dropLast
  have := s.data.dropLast.length_dropLast
  have h0 : s.data.dropLast.dropLast.length = 0 := by omega
  exact List.length_eq_zero.mp h0

theorem pour_short_dish_ordinal (st : St) (c : Chef) (s : String)
    (hs : s.data.length ≤ 2) :
    Chef.pour st c none (some s) = .error .valueError := by
  unfold Chef.pour ordInt pyInt
  dsimp only
  rw [if_pos (dropRight2_short s hs)]

theorem alookup_dinsert_self [DecidableEq α] (d : List (α × β)) (k : α) (v : β) :
    alookup (dinsert d k v) k = some v := by
  induction d with
  | nil => simp [dinsert, alookup]
  | cons p rest ih =>
    by_cases hk : p.1 = k
    · simp [dinsert, hk, alookup]
    · simp [dinsert, hk, alookup, ih]

theorem pour_creates_missing_dish (st : St) (c : Chef) (d : Option String)
    (bd : Int) (br : Nat) (l : List Nat)
    (hne : c.mixing_bowls ≠ c.baking_dishes)
    (hord : ordInt d = .ok bd)
    (hddict : (st.heap.getDict c.baking_dishes).isSome)
    (hdish : st.heap.dictGet c.baking_dishes (.int bd) = none)
    (hbowl : st.heap.dictGet c.mixing_bowls (.int 1) = some br)
    (hlist : st.heap.getList br = some l) :
    ∃ st2 r2, Chef.pour st c none d = .ok st2 ∧
      st2.heap.dictGet c.baking_dishes (.int bd) = some r2 ∧
      st2.heap.getList r2 = some l := by
  unfold Chef.pour
  rw [show ordInt none = Except.ok (1 : Int) from rfl]
  dsimp only
  rw [hord]
  dsimp only
  rw [hdish]
  dsimp only [Heap.allocList]
  obtain ⟨dd, hdd⟩ := Option.isSome_iff_exists.mp hddict
  have hbr : br < st.heap.lists.length := by
    by_contra hcon
    rw [Heap.getList, List.get?_eq_none.mpr (by omega)] at hlist
    cases hlist
  have hdlt : c.baking_dishes < st.heap.dicts.length := by
    by_contra hcon
    rw [Heap.getDict, List.get?_eq_none.mpr (by omega)] at hdd
    cases hdd
  have hdd2 : ({ st.heap with lists := st.heap.lists ++ [[]] } : Heap).getDict c.baking_dishes = some dd := hdd
  have hH : ({ st.heap with lists := st.heap.lists ++ [[]] } : Heap).dictSet c.baking_dishes (BKey.int bd) st.heap.lists.length = { st.heap with lists := st.heap.lists ++ [[]], dicts := st.heap.dicts.set c.baking_dishes (dinsert dd (BKey.int bd) st.heap.lists.length) } := by
    rw [Heap.dictSet, hdd2]
  rw [hH]
  have hbowl2 := hbowl
  rw [Heap.dictGet, Heap.getDict] at hbowl2
  have hA : ({ st.heap with lists := st.heap.lists ++ [[]], dicts := st.heap.dicts.set c.baking_dishes (dinsert dd (BKey.int bd) st.heap.lists.length) } : Heap).dictGet c.mixing_bowls (BKey.int 1) = some br := by
    rw [Heap.dictGet, Heap.getDict]
    dsimp only
    rw [List.get?_set_ne _ _ hne.symm]
    exact hbowl2
  have hB : ({ st.heap with lists := st.heap.lists ++ [[]], dicts := st.heap.dicts.set c.baking_dishes (dinsert dd (BKey.int bd) st.heap.lists.length) } : Heap).getList st.heap.lists.length = some [] := by
    rw [Heap.getList]
    exact List.get?_concat_length _ _
  have hlist2 := hlist
  rw [Heap.getList] at hlist2
  have hC : ({ st.heap with lists := st.heap.lists ++ [[]], dicts := st.heap.dicts.set c.baking_dishes (dinsert dd (BKey.int bd) st.heap.lists.length) } : Heap).getList br = some l := by
    rw [Heap.getList]
    dsimp only
    rw [List.get?_append hbr]
    exact hlist2
  rw [hA]
  dsimp only
  rw [hB, hC]
  dsimp only
  refine ⟨_, st.heap.lists.length, rfl, ?_, ?_⟩
  · rw [Heap.setList, Heap.dictGet, Heap.getDict]
    dsimp only
    rw [List.get?_set_eq_of_lt _ hdlt]
    dsimp only [Option.bind]
    exact alookup_dinsert_self dd (BKey.int bd) st.heap.lists.length
  · rw [Heap.setList, Heap.getList]
    dsimp only
    rw [List.get?_set_eq_of_lt]
    · rw [List.nil_append]
    · simp

theorem put_absent_bowl (st : St) (c : Chef) (ing : String) (r0 : Nat)
    (s : String)
    (hing : alookup c.ingredients ing = some r0)
    (hbowl : st.heap.dictGet c.mixing_bowls (.str s) = none) :
    Chef.put st c ing (some s) = .error (.bowlMissing (.str s)) := by
  unfold Chef.put
  dsimp only
  rw [hing, hbowl]

/-- C10: amended.  Whenever the dish number that line 920 computes — the
int of the digits-only capture with its last two characters dropped, and 1
when the ordinal is omitted — is absent from the dish dict, Pour silently
creates that dish as empty before appending the bowl contents (so the
default Pour creates dish 1, and a capture such as `234` silently creates
the misparsed dish 2); a capture of at most two characters instead aborts
with ValueError (`int("")` after the `[:-2]` slice); and a Put naming a
mixing bowl absent from the bowl dict fails with the runtime error of line
752 rather than creating the bowl. -/
theorem c10_pour_put_amended :
    (∀ (st : St) (c : Chef) (d : Option String) (bd : Int) (br : Nat)
        (l : List Nat),
      c.mixing_bowls ≠ c.baking_dishes →
      ordInt d = .ok bd →
      (st.heap.getDict c.baking_dishes).isSome →
      st.heap.dictGet c.baking_dishes (.int bd) = none →
      st.heap.dictGet c.mixing_bowls (.int 1) = some br →
      st.heap.getList br = some l →
      ∃ st2 r2, Chef.pour st c none d = .ok st2 ∧
        st2.heap.dictGet c.baking_dishes (.int bd) = some r2 ∧
        st2.heap.getList r2 = some l) ∧
    (∀ (st : St) (c : Chef) (s : String), s.data.length ≤ 2 →
      Chef.pour st c none (some s) = .error .valueError) ∧
    (∀ (st : St) (c : Chef) (ing : String) (r0 : Nat) (s : String),
      alookup c.ingredients ing = some r0 →
      st.heap.dictGet c.mixing_bowls (.str s) = none →
      Chef.put st c ing (some s) = .error (.bowlMissing (.str s))) :=
  ⟨fun st c d bd br l hne hord hd1 hd2 hb hl =>
    pour_creates_missing_dish st c d bd br l hne hord hd1 hd2 hb hl,
   fun st c s hs => pour_short_dish_ordinal st c s hs,
   fun st c ing r0 s hi hb => put_absent_bowl st c ing r0 s hi hb⟩

/-- C10 witness: with bowl 1 holding one record and no dish yet created,
the default Pour creates dish 1 with the bowl contents; Pour into the
234th dish silently creates the misparsed dish 2 with the bowl contents;
Pour into the 2nd dish aborts with ValueError; Put into the (string-keyed,
hence absent) bowl 7 aborts with the bowl-missing runtime error. -/
theorem c10_pour_put_amended_witness :
    (∃ st2 r2,
      Chef.pour { heap := hC10, stdin := [] } cC10 none none = .ok st2 ∧
        st2.heap.dictGet cC10.baking_dishes (.int 1) = some r2 ∧
        st2.heap.getList r2 = some [0]) ∧
    (∃ st2 r2,
      Chef.pour { heap := hC10, stdin := [] } cC10 none (some "234")
          = .ok st2 ∧
        st2.heap.dictGet cC10.baking_dishes (.int 2) = some r2 ∧
        st2.heap.getList r2 = some [0]) ∧
    Chef.pour { heap := hC10, stdin := [] } cC10 none (some "2")
      = .error .valueError ∧
    Chef.put { heap := hC10, stdin := [] } cC10 "x" (some "7")
      = .error (.bowlMissing (.str "7")) :=
  ⟨c10_pour_put_amended.1 { heap := hC10, stdin := [] } cC10 none 1 0 [0]
      (by decide) (by decide) (by decide) (by decide) (by decide) (by decide),
   c10_pour_put_amended.1 { heap := hC10, stdin := [] } cC10 (some "234") 2 0
      [0] (by decide) (by decide) (by decide) (by decide) (by decide)
      (by decide),
   c10_pour_put_amended.2.1 { heap := hC10, stdin := [] } cC10 "2" (by decide),
   c10_pour_put_amended.2.2 { heap := hC10, stdin := [] } cC10 "x" 0 "7"
      (by decide) (by decide)⟩
